import Mathlib

/-!
Shallow embedding of the TraceWeatherCEP pipeline (two Go services:
a front gateway `service-a` and a resolver `service-b`) together with
proofs about its validation, error-mapping, conversion and passthrough
behaviour.

Conventions of the embedding:
* Go `float64` values are represented by the exact rational value of the
  IEEE-754 binary64 datum; `roundDouble` is round-to-nearest, ties to
  even, at 53 bits of precision (subnormals handled by clamping the
  exponent at -1022; overflow to infinity is outside the range of every
  value handled here).
* Go `error` values are represented by the string returned by their
  `Error()` method, since the handlers dispatch on that string.
  Transport errors from `(*http.Client).Do` carry the `*url.Error`
  wrapping `Get "<url>": <inner>` / `Post "<url>": <inner>` that
  `net/http` guarantees; a body-read failure is represented by the
  canonical `io.ErrUnexpectedEOF` message `unexpected EOF`; a
  `json.Unmarshal` failure carries the `encoding/json` syntax-error
  message shape `invalid character <detail>`.
* The network interactions of a handler call are captured in an
  `Effects` record: the list of outbound calls attempted (by URL) and
  the list of errors recorded on spans via `span.RecordError`.
-/

/-! ### Postal-code validator (shared by both services)

Go source (identical in `service-a/main.go` and `service-b/main.go`):
```
func validateCEP(cep string) bool {
    matched, _ := regexp.MatchString(`^\d{8}$`, cep)
    return matched
}
```
The anchored pattern `^\d{8}$` matches exactly the strings made of
eight ASCII decimal digits. -/

/-- Matcher for the regular expression `\d{n}` against a whole rune list:
`n` characters, each an ASCII decimal digit. -/
def matchDigits : Nat → List Char → Bool
  | 0, [] => true
  | n + 1, c :: cs => c.isDigit && matchDigits n cs
  | _, _ => false

/-- Go `validateCEP`: the anchored regexp `^\d{8}$` applied to the
candidate string. -/
def validateCEP (cep : String) : Bool :=
  matchDigits 8 cep.data

/-! ### IEEE-754 binary64 model

Mathlib's `ℚ` has `@[irreducible]` arithmetic, so the model uses its own
rational representation with fully evaluable operations. -/

/-- Rational numbers as integer fractions `num / den`.  Every operation
of the model returns a fraction in lowest terms with a positive
denominator, so model values compare by structural equality. -/
structure Q where
  num : ℤ
  den : ℤ
deriving DecidableEq

/-- Reduce a fraction (with nonzero denominator) to lowest terms with a
positive denominator. -/
def Q.norm (x : Q) : Q :=
  if x.num = 0 then ⟨0, 1⟩
  else
    let n := if x.den < 0 then -x.num else x.num
    let d := if x.den < 0 then -x.den else x.den
    let g : ℤ := (Int.gcd n d : ℤ)
    ⟨n / g, d / g⟩

instance (n : Nat) : OfNat Q n := ⟨⟨(n : ℤ), 1⟩⟩

/-- Exact rational addition. -/
def Q.add (a b : Q) : Q := Q.norm ⟨a.num * b.den + b.num * a.den, a.den * b.den⟩

/-- Exact rational multiplication. -/
def Q.mul (a b : Q) : Q := Q.norm ⟨a.num * b.num, a.den * b.den⟩

/-- Strict order, for fractions with positive denominators. -/
def Q.blt (a b : Q) : Bool := a.num * b.den < b.num * a.den

/-- Round a positive-denominator fraction to the nearest integer, ties
to even. -/
def rne (q : Q) : ℤ :=
  let f : ℤ := q.num.fdiv q.den
  let r2 : ℤ := 2 * (q.num - f * q.den)
  if r2 < q.den then f
  else if q.den < r2 then f + 1
  else if f % 2 = 0 then f else f + 1

/-- `⌊log₂ n⌋` by fuelled recursion. -/
def nlog2go : Nat → Nat → Nat
  | 0, _ => 0
  | f + 1, n => if 2 ≤ n then nlog2go f (n / 2) + 1 else 0

/-- Smallest `k` with `n ≤ 2 ^ k` (for `n ≥ 1`), by fuelled recursion. -/
def nclog2go : Nat → Nat → Nat
  | 0, _ => 0
  | f + 1, n => if n ≤ 1 then 0 else nclog2go f ((n + 1) / 2) + 1

/-- `⌊log₂ q⌋` for a positive fraction (positive numerator and
denominator). -/
def qlog2 (a : Q) : ℤ :=
  if a.den ≤ a.num then (nlog2go (a.num.fdiv a.den).toNat (a.num.fdiv a.den).toNat : ℤ)
  else
    let c := ((a.den + a.num - 1).fdiv a.num).toNat; -(nclog2go c c : ℤ)

/-- Round a rational to the nearest IEEE-754 binary64 value
(round-to-nearest, ties to even; precision 53; exponent clamped at the
subnormal threshold -1022; overflow to infinity is outside the range of
every value arising here). -/
def roundDouble (q : Q) : Q :=
  if q.num = 0 then ⟨0, 1⟩
  else
    let n := if q.den < 0 then -q.num else q.num
    let d := if q.den < 0 then -q.den else q.den
    let a : Q := ⟨if n < 0 then -n else n, d⟩
    let e : ℤ := if qlog2 a < -1022 then -1022 else qlog2 a
    let k : ℤ := 52 - e
    let scaled : Q :=
      if 0 ≤ k then ⟨a.num * ((2 ^ k.toNat : ℕ) : ℤ), a.den⟩
      else ⟨a.num, a.den * ((2 ^ (-k).toNat : ℕ) : ℤ)⟩
    let m : ℤ := rne scaled
    let s : ℤ := if n < 0 then -1 else 1
    Q.norm (if 0 ≤ k then ⟨s * m, ((2 ^ k.toNat : ℕ) : ℤ)⟩
            else ⟨s * m * ((2 ^ (-k).toNat : ℕ) : ℤ), 1⟩)

/-- binary64 addition: exact sum, then rounding. -/
def fadd (a b : Q) : Q := roundDouble (Q.add a b)

/-- binary64 multiplication: exact product, then rounding. -/
def fmul (a b : Q) : Q := roundDouble (Q.mul a b)

/-- The binary64 value of the decimal literal `m × 10⁻ᵏ`, as produced
by the Go compiler for a floating-point constant. -/
def decimalLit (m : ℤ) (k : ℕ) : Q := roundDouble ⟨m, ((10 ^ k : ℕ) : ℤ)⟩

/-! ### Temperature conversions

Go source (`service-b/main.go`):
```
func celsiusToFahrenheit(celsius float64) float64 {
    return celsius*1.8 + 32
}

func celsiusToKelvin(celsius float64) float64 {
    return celsius + 273
}
```
The decimal literals are converted to binary64 by the compiler, hence
the `roundDouble` on each constant. -/

/-- Go `celsiusToFahrenheit`: `celsius*1.8 + 32` in binary64 arithmetic. -/
def celsiusToFahrenheit (celsius : Q) : Q :=
  fadd (fmul celsius (decimalLit 18 1)) (decimalLit 32 0)

/-- Go `celsiusToKelvin`: `celsius + 273` in binary64 arithmetic. -/
def celsiusToKelvin (celsius : Q) : Q :=
  fadd celsius (decimalLit 273 0)

/-- C1: the postal-code validator accepts a string exactly when it
consists of eight characters, every one an ASCII decimal digit; any
other string (empty, of a different length, or containing a non-digit
character, whitespace included) is rejected. -/
theorem validateCEP_eq_true_iff (s : String) :
    validateCEP s = true ↔ s.length = 8 ∧ ∀ c ∈ s.data, c.isDigit = true := by
  have key : ∀ (l : List Char) (n : Nat),
      matchDigits n l = true ↔ l.length = n ∧ ∀ c ∈ l, c.isDigit = true := by
    intro l
    induction l with
    | nil =>
      intro n
      cases n with
      | zero => simp [matchDigits]
      | succ m => simp [matchDigits]
    | cons c cs ih =>
      intro n
      cases n with
      | zero => simp [matchDigits]
      | succ m =>
        simp only [matchDigits, Bool.and_eq_true, ih m, List.length_cons,
          List.mem_cons, Nat.succ_eq_add_one, Nat.add_left_inj]
        constructor
        · rintro ⟨hc, hlen, hall⟩
          exact ⟨hlen, by rintro x (rfl | hx); exact hc; exact hall x hx⟩
        · rintro ⟨hlen, hall⟩
          exact ⟨hall c (Or.inl rfl), hlen, fun x hx => hall x (Or.inr hx)⟩
  exact key s.data 8

/-- C2: for every finite binary64 value c, celsiusToFahrenheit c is
exactly the binary64 expression c*1.8+32 and celsiusToKelvin c is
exactly the binary64 expression c+273 (negative c included); the Kelvin
offset constant is exactly 273, which is not the binary64 value of the
literal 273.15, and the Fahrenheit factor constant is the binary64
value of the literal 1.8. -/
theorem conversion_formulas (c : Q) :
    celsiusToFahrenheit c = fadd (fmul c (decimalLit 18 1)) 32 ∧
    celsiusToKelvin c = fadd c 273 ∧
    decimalLit 18 1 = ⟨8106479329266893, 4503599627370496⟩ ∧
    decimalLit 273 0 = 273 ∧ decimalLit 273 0 ≠ decimalLit 27315 2 := by
  refine ⟨?_, ?_, by decide, by decide, by decide⟩
  · show fadd (fmul c (decimalLit 18 1)) (decimalLit 32 0) = _
    rw [show decimalLit 32 0 = (32 : Q) from by decide]
  · show fadd c (decimalLit 273 0) = _
    rw [show decimalLit 273 0 = (273 : Q) from by decide]

/-! ### JSON serialisation (encoding/json, as used by gin's JSON
renderer and by json.Marshal in both services) -/

/-- Lowercase hexadecimal digit. -/
def hexDigitChar (n : Nat) : Char :=
  if n < 10 then Char.ofNat (48 + n) else Char.ofNat (87 + n)

/-- encoding/json string-character encoding, HTML escaping enabled (the
default used by json.Marshal and by gin's JSON renderer). -/
def jsonEncChar (c : Char) : String :=
  if c = '"' then "\\\""
  else if c = '\\' then "\\\\"
  else if c = '\n' then "\\n"
  else if c = '\r' then "\\r"
  else if c = '\t' then "\\t"
  else if c = '<' ∨ c = '>' ∨ c = '&' ∨ c.toNat < 32 then
    "\\u00" ++ String.singleton (hexDigitChar (c.toNat / 16)) ++
      String.singleton (hexDigitChar (c.toNat % 16))
  else if c.toNat = 0x2028 ∨ c.toNat = 0x2029 then
    "\\u202" ++ String.singleton (hexDigitChar (c.toNat % 16))
  else String.singleton c

/-- encoding/json string encoding. -/
def jsonEncString (s : String) : String :=
  "\"" ++ String.join (s.data.map jsonEncChar) ++ "\""

/-- `⌊log₁₀ n⌋` by fuelled recursion. -/
def nlog10go : Nat → Nat → Nat
  | 0, _ => 0
  | f + 1, n => if 10 ≤ n then nlog10go f (n / 10) + 1 else 0

/-- Smallest `k` with `n ≤ 10 ^ k` (for `n ≥ 1`), by fuelled recursion. -/
def nclog10go : Nat → Nat → Nat
  | 0, _ => 0
  | f + 1, n => if n ≤ 1 then 0 else nclog10go f ((n + 9) / 10) + 1

/-- `⌊log₁₀ q⌋` for a positive fraction. -/
def qlog10 (a : Q) : ℤ :=
  if a.den ≤ a.num then (nlog10go (a.num.fdiv a.den).toNat (a.num.fdiv a.den).toNat : ℤ)
  else
    let c := ((a.den + a.num - 1).fdiv a.num).toNat; -(nclog10go c c : ℤ)

/-- The fraction `d × 10⁻ᵏ`. -/
def qOfScaled (d : ℤ) (k : ℤ) : Q :=
  if 0 ≤ k then ⟨d, ((10 ^ k.toNat : ℕ) : ℤ)⟩
  else ⟨d * ((10 ^ (-k).toNat : ℕ) : ℤ), 1⟩

/-- The fraction `v × 10ᵏ`. -/
def qscale10 (v : Q) (k : ℤ) : Q :=
  if 0 ≤ k then ⟨v.num * ((10 ^ k.toNat : ℕ) : ℤ), v.den⟩
  else ⟨v.num, v.den * ((10 ^ (-k).toNat : ℕ) : ℤ)⟩

/-- The two integers nearest to `scaled`, closest first, ties
preferring the even one (the tie rule of Ryu, used by strconv). -/
def sdCandidates (scaled : Q) : List ℤ :=
  let lo := scaled.num.fdiv scaled.den
  let hi := lo + 1
  let dl : ℤ := 2 * (scaled.num - lo * scaled.den)
  if dl < scaled.den then [lo, hi]
  else if scaled.den < dl then [hi, lo]
  else if lo % 2 = 0 then [lo, hi] else [hi, lo]

/-- Try to represent the positive binary64 value `v` by a decimal of
`n` significant digits that rounds back to `v`; on success return the
digits and the decimal exponent. -/
def sdTry (v : Q) (e10 : ℤ) (n : ℕ) : Option (ℤ × ℤ) :=
  let k : ℤ := (n : ℤ) - 1 - e10
  (sdCandidates (qscale10 v k)).findSome? fun d =>
    if 0 < d ∧ roundDouble (qOfScaled d k) = v then some (d, -k) else none

/-- Search upward from `n` significant digits, with fuel. -/
def sdLoop (v : Q) (e10 : ℤ) : Nat → Nat → Option (ℤ × ℤ)
  | 0, _ => none
  | f + 1, n =>
    match sdTry v e10 n with
    | some r => some r
    | none => sdLoop v e10 f (n + 1)

/-- The shortest decimal representation `(digits, exponent)` of a
positive binary64 value, value = digits × 10^exponent: the behaviour of
strconv.FormatFloat with precision -1 (17 significant digits always
suffice for binary64). -/
def shortestDecimal (v : Q) : ℤ × ℤ :=
  (sdLoop v (qlog10 v) 18 1).getD (0, 0)

/-- Drop trailing zero digits, moving them into the exponent. -/
def stripZeros : Nat → ℤ × ℤ → ℤ × ℤ
  | 0, p => p
  | f + 1, (d, k) => if d % 10 = 0 ∧ d ≠ 0 then stripZeros f (d / 10, k + 1) else (d, k)

/-- `⌊log₁₀ n⌋`. -/
def nlog10 (n : ℕ) : ℕ := nlog10go n n

/-- strconv fixed-point rendering of `m × 10ᵏ` for `m > 0`. -/
def fmtFixed (m : ℕ) (k : ℤ) : String :=
  let s := toString m
  if 0 ≤ k then s ++ String.mk (List.replicate k.toNat '0')
  else
    let t := (-k).toNat
    if t < s.length then s.take (s.length - t) ++ "." ++ s.drop (s.length - t)
    else "0." ++ String.mk (List.replicate (t - s.length) '0') ++ s

/-- strconv scientific rendering of mantissa digits `m` with decimal
exponent `E`. -/
def fmtSci (m : ℕ) (E : ℤ) : String :=
  let s := toString m
  let mant := if s.length = 1 then s else s.take 1 ++ "." ++ s.drop 1
  let es := toString E.natAbs
  mant ++ "e" ++ (if E < 0 then "-" else "+") ++ (if es.length < 2 then "0" ++ es else es)

/-- encoding/json float64 encoder: shortest round-tripping decimal,
fixed notation for magnitudes in [1e-6, 1e21), scientific notation
otherwise. -/
def fmtFloat (v : Q) : String :=
  if v.num = 0 then "0"
  else
    let a : Q := Q.norm (if v.num < 0 then ⟨-v.num, v.den⟩ else v)
    let sign := if v.num < 0 then "-" else ""
    let p := stripZeros 40 (shortestDecimal a)
    let m := p.1.toNat
    let k := p.2
    if Q.blt a ⟨1, 1000000⟩ || !(Q.blt a ⟨1000000000000000000000, 1⟩) then
      sign ++ fmtSci m ((nlog10 m : ℤ) + k)
    else sign ++ fmtFixed m k

/-- json.Marshal of the ErrorResponse struct
`ErrorResponse{Message: msg}` (field tag "message"). -/
def marshalError (msg : String) : String :=
  "\x7b\"message\":" ++ jsonEncString msg ++ "\x7d"

/-- json.Marshal of the WeatherResponse struct, fields in declaration
order: city, temp_C, temp_F, temp_K. -/
def marshalWeatherResponse (city : String) (tempC tempF tempK : Q) : String :=
  "\x7b\"city\":" ++ jsonEncString city ++ ",\"temp_C\":" ++ fmtFloat tempC ++
    ",\"temp_F\":" ++ fmtFloat tempF ++ ",\"temp_K\":" ++ fmtFloat tempK ++ "\x7d"

/-! ### Outcome and effect model for the network-facing code -/

/-- The observable side effects of one handler invocation: the outbound
network calls attempted (by URL) and the errors recorded on trace spans
via span.RecordError, in order. -/
structure Effects where
  calls : List String
  spanErrors : List String
deriving DecidableEq

/-- Go struct CEPRequest (field tag "cep"). -/
structure CEPRequest where
  cep : String
deriving DecidableEq

/-- Go struct ViaCEPResponse: the decoded payload of the Postal Lookup
Provider; `erro` is the provider's boolean not-found flag. -/
structure ViaCEPResponse where
  cep : String
  logradouro : String
  complemento : String
  bairro : String
  localidade : String
  uf : String
  ibge : String
  gia : String
  ddd : String
  siafi : String
  erro : Bool
deriving DecidableEq

/-- The message of the *url.Error produced when (*http.Client).Do fails
on a GET request: net/http wraps every transport error this way. -/
def urlErrorGet (u inner : String) : String := "Get \"" ++ u ++ "\": " ++ inner

/-- The message of the *url.Error produced when (*http.Client).Do fails
on a POST request. -/
def urlErrorPost (u inner : String) : String := "Post \"" ++ u ++ "\": " ++ inner

/-- The canonical io.ErrUnexpectedEOF message standing for a failure
while reading a response body. -/
def readErrMsg : String := "unexpected EOF"

/-- The encoding/json syntax-error message shape standing for an
unmarshal failure on a malformed payload. -/
def jsonErrMsg (detail : String) : String := "invalid character " ++ detail

/-- One interaction with the Postal Lookup Provider, as seen by
getCityFromCEP after the GET request is issued: a transport failure, a
body-read failure, a payload that fails to unmarshal, or a decoded
ViaCEPResponse (the Go code never inspects the HTTP status here, but it
is part of the response). -/
inductive ViaCEPUpstream where
  | netErr (inner : String)
  | readErr
  | malformed (detail : String)
  | payload (status : Nat) (v : ViaCEPResponse)

/-- The Postal Lookup Provider URL built by getCityFromCEP. -/
def viaCEPURL (cep : String) : String :=
  "https://viacep.com.br/ws/" ++ cep ++ "/json/"

/-- Go getCityFromCEP (service-b): issues the ViaCEP GET inside span
"viacep-lookup"; any transport/read/decode error is returned (and
recorded on the span); a decoded payload with the erro flag set returns
the error "CEP not found" (recorded as a span attribute, not as a span
error); otherwise the Localidade field is returned. -/
def getCityFromCEP (cep : String) (up : ViaCEPUpstream) :
    Except String String × Effects :=
  let u := viaCEPURL cep
  match up with
  | .netErr inner =>
    (.error (urlErrorGet u inner), ⟨[u], [urlErrorGet u inner]⟩)
  | .readErr => (.error readErrMsg, ⟨[u], [readErrMsg]⟩)
  | .malformed detail =>
    (.error (jsonErrMsg detail), ⟨[u], [jsonErrMsg detail]⟩)
  | .payload _ v =>
    if v.erro then (.error "CEP not found", ⟨[u], []⟩)
    else (.ok v.localidade, ⟨[u], []⟩)

/-- The error object the Weather Provider may embed in its payload
(numeric code and message). -/
structure WeatherAPIError where
  code : ℤ
  message : String
deriving DecidableEq

/-- The decoded Weather Provider payload: the current temperature in
Celsius (zero when the field is absent) and the optional embedded error
object. -/
structure WeatherAPIPayload where
  tempC : Q
  error : Option WeatherAPIError
deriving DecidableEq

/-- The body stage of one Weather Provider interaction: read failure,
unmarshal failure, or a decoded payload. -/
inductive WeatherBody where
  | readErr
  | malformed (detail : String)
  | decoded (w : WeatherAPIPayload)

/-- One interaction with the Weather Provider, as seen by getWeather
once a request is issued: a transport failure, or an HTTP response with
a status code and a body stage. -/
inductive WeatherUpstream where
  | netErr (inner : String)
  | httpResp (status : Nat) (body : WeatherBody)

/-- The Weather Provider endpoint queried by getWeather (query string
with key, city and aqi=no omitted). -/
def weatherURL : String := "https://api.weatherapi.com/v1/current.json"

/-- Go getWeather (service-b): inside span "weather-lookup", reads
WEATHERAPI_KEY from the environment (the empty string when unset) and
fails immediately when it is empty, before any network call; otherwise
issues the GET; statuses 401 and 403 are auth failures; any other
status has its body read and decoded; a decoded payload with an
embedded error object maps code 1006 to "city not found" and any other
code to a generic error carrying the provider's message; otherwise the
Celsius temperature is returned. -/
def getWeather (apiKey : String) (city : String) (up : WeatherUpstream) :
    Except String Q × Effects :=
  if apiKey = "" then
    (.error "WEATHERAPI_KEY not set", ⟨[], ["WEATHERAPI_KEY not set"]⟩)
  else
    match up with
    | .netErr inner =>
      (.error (urlErrorGet weatherURL inner), ⟨[weatherURL], [urlErrorGet weatherURL inner]⟩)
    | .httpResp status body =>
      if status = 401 ∨ status = 403 then
        let e := "weatherapi auth error: " ++ toString status
        (.error e, ⟨[weatherURL], [e]⟩)
      else
        match body with
        | .readErr => (.error readErrMsg, ⟨[weatherURL], [readErrMsg]⟩)
        | .malformed detail =>
          (.error (jsonErrMsg detail), ⟨[weatherURL], [jsonErrMsg detail]⟩)
        | .decoded w =>
          match w.error with
          | some e =>
            if e.code = 1006 then
              (.error "city not found", ⟨[weatherURL], ["city not found"]⟩)
            else
              let m := "weatherapi error " ++ toString e.code ++ ": " ++ e.message
              (.error m, ⟨[weatherURL], [m]⟩)
          | none => (.ok w.tempC, ⟨[weatherURL], []⟩)

/-- An HTTP response of the Resolver Service: status code and body. -/
structure HTTPResponse where
  status : Nat
  body : String
deriving DecidableEq

/-- Go service-b POST /weather handler: decode the request body (422
"invalid zipcode" on failure), validate the postal code (422 on
failure, before any network activity), look up the city (404 "can not
find zipcode" when the error message is exactly "CEP not found", else
500 "internal server error" with the error recorded on the span), look
up the weather (404 when the message is exactly "city not found", else
500 with the error recorded), convert and respond 200 with the
marshalled WeatherResponse.  The first component of the input is the
result of ShouldBindJSON (error message, or decoded CEPRequest). -/
def handleWeather (reqBody : Except String CEPRequest) (apiKey : String)
    (viaUp : ViaCEPUpstream) (wUp : WeatherUpstream) : HTTPResponse × Effects :=
  match reqBody with
  | .error e => (⟨422, marshalError "invalid zipcode"⟩, ⟨[], [e]⟩)
  | .ok req =>
    if validateCEP req.cep = false then
      (⟨422, marshalError "invalid zipcode"⟩, ⟨[], []⟩)
    else
      match getCityFromCEP req.cep viaUp with
      | (.error e, eff) =>
        if e = "CEP not found" then
          (⟨404, marshalError "can not find zipcode"⟩, eff)
        else
          (⟨500, marshalError "internal server error"⟩,
           ⟨eff.calls, eff.spanErrors ++ [e]⟩)
      | (.ok city, eff1) =>
        match getWeather apiKey city wUp with
        | (.error e, eff2) =>
          if e = "city not found" then
            (⟨404, marshalError "can not find zipcode"⟩,
             ⟨eff1.calls ++ eff2.calls, eff1.spanErrors ++ eff2.spanErrors⟩)
          else
            (⟨500, marshalError "internal server error"⟩,
             ⟨eff1.calls ++ eff2.calls, eff1.spanErrors ++ eff2.spanErrors ++ [e]⟩)
        | (.ok tempC, eff2) =>
          (⟨200, marshalWeatherResponse city tempC (celsiusToFahrenheit tempC)
              (celsiusToKelvin tempC)⟩,
           ⟨eff1.calls ++ eff2.calls, eff1.spanErrors ++ eff2.spanErrors⟩)

/-! ### Front Gateway (service-a) -/

/-- The Resolver Service endpoint called by the gateway. -/
def serviceBURL : String := "http://service-b:8081/weather"

/-- One interaction with the Resolver Service as seen by the gateway's
handler: transport failure, body-read failure, or a response carrying a
status code, a content type and a body. -/
inductive ResolverUpstream where
  | netErr (inner : String)
  | readErr
  | resp (status : Nat) (contentType : String) (body : String)

/-- An HTTP response of the Front Gateway: status, content type, body. -/
structure GatewayResponse where
  status : Nat
  contentType : String
  body : String
deriving DecidableEq

/-- The content type gin's c.JSON sets on the responses the gateway
builds itself. -/
def ginJSONContentType : String := "application/json; charset=utf-8"

/-- Go service-a POST /cep handler: decode the request body (422
"invalid zipcode" on failure, error recorded), validate the postal code
(422 on failure, before any network activity), POST to the Resolver
Service; on transport or body-read failure respond 500 "internal server
error" with the error recorded on the call span; otherwise relay the
Resolver's status code and body bytes via c.Data with content type
"application/json". -/
def handleCEP (reqBody : Except String CEPRequest) (up : ResolverUpstream) :
    GatewayResponse × Effects :=
  match reqBody with
  | .error e => (⟨422, ginJSONContentType, marshalError "invalid zipcode"⟩, ⟨[], [e]⟩)
  | .ok req =>
    if validateCEP req.cep = false then
      (⟨422, ginJSONContentType, marshalError "invalid zipcode"⟩, ⟨[], []⟩)
    else
      match up with
      | .netErr inner =>
        (⟨500, ginJSONContentType, marshalError "internal server error"⟩,
         ⟨[serviceBURL], [urlErrorPost serviceBURL inner]⟩)
      | .readErr =>
        (⟨500, ginJSONContentType, marshalError "internal server error"⟩,
         ⟨[serviceBURL], [readErrMsg]⟩)
      | .resp status _ct body =>
        (⟨status, "application/json", body⟩, ⟨[serviceBURL], []⟩)

/-! ### Wrapped error messages never collide with the sentinel messages
the handler dispatches on -/

/-- Two strings whose first characters differ are distinct, even after
appending. -/
theorem append_ne_of_data_head (p q s : String) (a b : Char) (l m : List Char)
    (hp : p.data = a :: l) (hs : s.data = b :: m) (hab : ¬ a = b) : ¬ p ++ q = s := by
  intro h
  have hd : (p ++ q).data = s.data := by rw [h]
  rw [String.data_append, hp, hs] at hd
  injection hd with h1 _
  exact hab h1

theorem urlErrorGet_ne_cep (u i : String) : ¬ urlErrorGet u i = "CEP not found" := by
  apply append_ne_of_data_head ("Get \"" ++ u ++ "\": ") i "CEP not found" 'G' 'C'
    ("et \"".data ++ u.data ++ "\": ".data) "EP not found".data ?_ rfl (by decide)
  rw [String.data_append, String.data_append]
  rfl

theorem jsonErrMsg_ne_cep (detail : String) : ¬ jsonErrMsg detail = "CEP not found" :=
  append_ne_of_data_head "invalid character " detail "CEP not found" 'i' 'C'
    "nvalid character ".data "EP not found".data rfl rfl (by decide)

theorem readErrMsg_ne_cep : ¬ readErrMsg = "CEP not found" := by decide

theorem urlErrorGet_ne_city (u i : String) : ¬ urlErrorGet u i = "city not found" := by
  apply append_ne_of_data_head ("Get \"" ++ u ++ "\": ") i "city not found" 'G' 'c'
    ("et \"".data ++ u.data ++ "\": ".data) "ity not found".data ?_ rfl (by decide)
  rw [String.data_append, String.data_append]
  rfl

theorem jsonErrMsg_ne_city (detail : String) : ¬ jsonErrMsg detail = "city not found" :=
  append_ne_of_data_head "invalid character " detail "city not found" 'i' 'c'
    "nvalid character ".data "ity not found".data rfl rfl (by decide)

theorem authErr_ne_city (st : Nat) :
    ¬ ("weatherapi auth error: " ++ toString st) = "city not found" :=
  append_ne_of_data_head "weatherapi auth error: " (toString st) "city not found" 'w' 'c'
    "eatherapi auth error: ".data "ity not found".data rfl rfl (by decide)

theorem weatherErr_ne_city (c : ℤ) (msg : String) :
    ¬ ("weatherapi error " ++ toString c ++ ": " ++ msg) = "city not found" := by
  apply append_ne_of_data_head ("weatherapi error " ++ toString c ++ ": ") msg
    "city not found" 'w' 'c' ("eatherapi error ".data ++ (toString c).data ++ ": ".data)
    "ity not found".data ?_ rfl (by decide)
  rw [String.data_append, String.data_append]
  rfl

/-- C3: for every validated request whose city lookup does not succeed:
a decoded payload with the not-found flag set yields 404 with body
message "can not find zipcode"; a transport failure, a body-read
failure or a malformed payload yields 500 with body message "internal
server error", with the underlying error recorded on the span. -/
theorem city_lookup_failure_mapping (req : CEPRequest) (apiKey : String)
    (wUp : WeatherUpstream) (hv : validateCEP req.cep = true) :
    (∀ st v, v.erro = true →
      handleWeather (Except.ok req) apiKey (ViaCEPUpstream.payload st v) wUp =
        (⟨404, marshalError "can not find zipcode"⟩, ⟨[viaCEPURL req.cep], []⟩)) ∧
    (∀ inner,
      handleWeather (Except.ok req) apiKey (ViaCEPUpstream.netErr inner) wUp =
        (⟨500, marshalError "internal server error"⟩,
         ⟨[viaCEPURL req.cep],
          [urlErrorGet (viaCEPURL req.cep) inner, urlErrorGet (viaCEPURL req.cep) inner]⟩)) ∧
    (handleWeather (Except.ok req) apiKey ViaCEPUpstream.readErr wUp =
        (⟨500, marshalError "internal server error"⟩,
         ⟨[viaCEPURL req.cep], [readErrMsg, readErrMsg]⟩)) ∧
    (∀ detail,
      handleWeather (Except.ok req) apiKey (ViaCEPUpstream.malformed detail) wUp =
        (⟨500, marshalError "internal server error"⟩,
         ⟨[viaCEPURL req.cep], [jsonErrMsg detail, jsonErrMsg detail]⟩)) := by
  refine ⟨?_, ?_, ?_, ?_⟩
  · intro st v hverro
    simp [handleWeather, hv, getCityFromCEP, hverro]
  · intro inner
    simp [handleWeather, hv, getCityFromCEP, urlErrorGet_ne_cep]
  · simp [handleWeather, hv, getCityFromCEP, readErrMsg_ne_cep]
  · intro detail
    simp [handleWeather, hv, getCityFromCEP, jsonErrMsg_ne_cep]

/-- C3 witness at the postal code 01001000, an unknown-code payload and
a network-failure payload. -/
theorem city_lookup_failure_mapping_witness :
    validateCEP "01001000" = true ∧
    handleWeather (Except.ok ⟨"01001000"⟩) "key"
        (ViaCEPUpstream.payload 200 ⟨"", "", "", "", "", "", "", "", "", "", true⟩)
        (WeatherUpstream.netErr "dial tcp: i/o timeout") =
      (⟨404, marshalError "can not find zipcode"⟩, ⟨[viaCEPURL "01001000"], []⟩) ∧
    handleWeather (Except.ok ⟨"01001000"⟩) "key" ViaCEPUpstream.readErr
        (WeatherUpstream.netErr "dial tcp: i/o timeout") =
      (⟨500, marshalError "internal server error"⟩,
       ⟨[viaCEPURL "01001000"], [readErrMsg, readErrMsg]⟩) :=
  ⟨by decide,
   (city_lookup_failure_mapping ⟨"01001000"⟩ "key"
      (WeatherUpstream.netErr "dial tcp: i/o timeout") (by decide)).1 200
      ⟨"", "", "", "", "", "", "", "", "", "", true⟩ rfl,
   (city_lookup_failure_mapping ⟨"01001000"⟩ "key"
      (WeatherUpstream.netErr "dial tcp: i/o timeout") (by decide)).2.2.1⟩

/-- C4: a decoded Weather Provider payload embedding an error object
with code 1006 is the distinct city-not-found outcome, answered 404
with message "can not find zipcode"; an embedded error object with any
other code is a generic failure, answered 500 with message "internal
server error". -/
theorem weather_error_code_mapping (req : CEPRequest) (apiKey : String)
    (vst : Nat) (v : ViaCEPResponse) (st : Nat) (t : Q) (e : WeatherAPIError)
    (hv : validateCEP req.cep = true) (hverro : v.erro = false)
    (hk : ¬ apiKey = "") (h401 : ¬ st = 401) (h403 : ¬ st = 403) :
    (e.code = 1006 →
      handleWeather (Except.ok req) apiKey (ViaCEPUpstream.payload vst v)
          (WeatherUpstream.httpResp st (WeatherBody.decoded ⟨t, some e⟩)) =
        (⟨404, marshalError "can not find zipcode"⟩,
         ⟨[viaCEPURL req.cep, weatherURL], ["city not found"]⟩)) ∧
    (¬ e.code = 1006 →
      (handleWeather (Except.ok req) apiKey (ViaCEPUpstream.payload vst v)
          (WeatherUpstream.httpResp st (WeatherBody.decoded ⟨t, some e⟩))).1 =
        ⟨500, marshalError "internal server error"⟩) := by
  constructor
  · intro hcode
    simp [handleWeather, hv, getCityFromCEP, hverro, getWeather, hk, h401, h403, hcode]
  · intro hcode
    simp [handleWeather, hv, getCityFromCEP, hverro, getWeather, hk, h401, h403, hcode,
      weatherErr_ne_city]

/-- C4 witness: provider error code 1006 and provider error code 2008
(invalid key) on a successful city resolution. -/
theorem weather_error_code_mapping_witness :
    handleWeather (Except.ok ⟨"29902555"⟩) "key" (ViaCEPUpstream.payload 200
        ⟨"29902-555", "", "", "", "Linhares", "ES", "", "", "", "", false⟩)
        (WeatherUpstream.httpResp 400 (WeatherBody.decoded
          ⟨0, some ⟨1006, "No matching location found."⟩⟩)) =
      (⟨404, marshalError "can not find zipcode"⟩,
       ⟨[viaCEPURL "29902555", weatherURL], ["city not found"]⟩) ∧
    (handleWeather (Except.ok ⟨"29902555"⟩) "key" (ViaCEPUpstream.payload 200
        ⟨"29902-555", "", "", "", "Linhares", "ES", "", "", "", "", false⟩)
        (WeatherUpstream.httpResp 400 (WeatherBody.decoded
          ⟨0, some ⟨2008, "API key has been disabled."⟩⟩))).1 =
      ⟨500, marshalError "internal server error"⟩ :=
  ⟨(weather_error_code_mapping ⟨"29902555"⟩ "key" 200
      ⟨"29902-555", "", "", "", "Linhares", "ES", "", "", "", "", false⟩ 400 0
      ⟨1006, "No matching location found."⟩ (by decide) rfl (by decide) (by decide)
      (by decide)).1 rfl,
   (weather_error_code_mapping ⟨"29902555"⟩ "key" 200
      ⟨"29902-555", "", "", "", "Linhares", "ES", "", "", "", "", false⟩ 400 0
      ⟨2008, "API key has been disabled."⟩ (by decide) rfl (by decide) (by decide)
      (by decide)).2 (by decide)⟩

/-- C5: with the weather credential unset (the empty string returned by
os.Getenv), the weather lookup fails immediately for every possible
Weather Provider interaction, attempts no outbound call, records the
error on its span, and the handler answers 500 with message "internal
server error". -/
theorem missing_key_mapping (req : CEPRequest) (vst : Nat) (v : ViaCEPResponse)
    (city : String) (wUp : WeatherUpstream)
    (hv : validateCEP req.cep = true) (hverro : v.erro = false) :
    getWeather "" city wUp =
      (Except.error "WEATHERAPI_KEY not set", ⟨[], ["WEATHERAPI_KEY not set"]⟩) ∧
    handleWeather (Except.ok req) "" (ViaCEPUpstream.payload vst v) wUp =
      (⟨500, marshalError "internal server error"⟩,
       ⟨[viaCEPURL req.cep], ["WEATHERAPI_KEY not set", "WEATHERAPI_KEY not set"]⟩) := by
  constructor
  · simp [getWeather]
  · simp [handleWeather, hv, getCityFromCEP, hverro, getWeather]

/-- C5 witness at a concrete request and upstream. -/
theorem missing_key_mapping_witness :
    handleWeather (Except.ok ⟨"29902555"⟩) ""
        (ViaCEPUpstream.payload 200
          ⟨"29902-555", "", "", "", "Linhares", "ES", "", "", "", "", false⟩)
        (WeatherUpstream.httpResp 200 (WeatherBody.decoded ⟨⟨57, 2⟩, none⟩)) =
      (⟨500, marshalError "internal server error"⟩,
       ⟨[viaCEPURL "29902555"], ["WEATHERAPI_KEY not set", "WEATHERAPI_KEY not set"]⟩) :=
  (missing_key_mapping ⟨"29902555"⟩ 200
      ⟨"29902-555", "", "", "", "Linhares", "ES", "", "", "", "", false⟩ "Linhares"
      (WeatherUpstream.httpResp 200 (WeatherBody.decoded ⟨⟨57, 2⟩, none⟩))
      (by decide) rfl).2

/-- C6: for every status code and body the Resolver Service returns,
the gateway's outbound response carries the identical status and the
identical body, with no outbound effects beyond the one call and no
reinterpretation of the payload. -/
theorem gateway_passthrough (req : CEPRequest) (st : Nat) (ct body : String)
    (hv : validateCEP req.cep = true) :
    handleCEP (Except.ok req) (ResolverUpstream.resp st ct body) =
      (⟨st, "application/json", body⟩, ⟨[serviceBURL], []⟩) := by
  simp [handleCEP, hv]

/-- C6 witness: a 404 with the resolver's not-found body passes through
unchanged. -/
theorem gateway_passthrough_witness :
    handleCEP (Except.ok ⟨"99999999"⟩)
        (ResolverUpstream.resp 404 "text/plain" (marshalError "can not find zipcode")) =
      (⟨404, "application/json", marshalError "can not find zipcode"⟩,
       ⟨[serviceBURL], []⟩) :=
  gateway_passthrough ⟨"99999999"⟩ 404 "text/plain"
    (marshalError "can not find zipcode") (by decide)

/-- C7: in both components, a request whose body fails to decode or
whose postal code fails validation is answered 422 with the exact body
\x7b"message":"invalid zipcode"\x7d, and no outbound network call of
any kind is attempted. -/
theorem validation_failure_mapping (e : String) (req : CEPRequest)
    (hreq : validateCEP req.cep = false) (gup : ResolverUpstream)
    (apiKey : String) (viaUp : ViaCEPUpstream) (wUp : WeatherUpstream) :
    marshalError "invalid zipcode" = "\x7b\"message\":\"invalid zipcode\"\x7d" ∧
    handleCEP (Except.error e) gup =
      (⟨422, ginJSONContentType, marshalError "invalid zipcode"⟩, ⟨[], [e]⟩) ∧
    handleCEP (Except.ok req) gup =
      (⟨422, ginJSONContentType, marshalError "invalid zipcode"⟩, ⟨[], []⟩) ∧
    handleWeather (Except.error e) apiKey viaUp wUp =
      (⟨422, marshalError "invalid zipcode"⟩, ⟨[], [e]⟩) ∧
    handleWeather (Except.ok req) apiKey viaUp wUp =
      (⟨422, marshalError "invalid zipcode"⟩, ⟨[], []⟩) := by
  refine ⟨by decide, rfl, ?_, rfl, ?_⟩
  · simp [handleCEP, hreq]
  · simp [handleWeather, hreq]

/-- C7 witness at the spec's example postal code "123" and at a decode
failure. -/
theorem validation_failure_mapping_witness :
    validateCEP "123" = false ∧
    handleWeather (Except.ok ⟨"123"⟩) "key" ViaCEPUpstream.readErr
        (WeatherUpstream.netErr "x") =
      (⟨422, marshalError "invalid zipcode"⟩, ⟨[], []⟩) ∧
    handleCEP (Except.error "EOF") ResolverUpstream.readErr =
      (⟨422, ginJSONContentType, marshalError "invalid zipcode"⟩, ⟨[], ["EOF"]⟩) :=
  ⟨by decide,
   (validation_failure_mapping "EOF" ⟨"123"⟩ (by decide) ResolverUpstream.readErr
      "key" ViaCEPUpstream.readErr (WeatherUpstream.netErr "x")).2.2.2.2,
   (validation_failure_mapping "EOF" ⟨"123"⟩ (by decide) ResolverUpstream.readErr
      "key" ViaCEPUpstream.readErr (WeatherUpstream.netErr "x")).2.1⟩

/-- The ViaCEP payload used by the specification's worked example:
postal code 29902555 resolving to the locality "São Paulo". -/
def saoPauloViaCEP : ViaCEPResponse :=
  ⟨"29902-555", "", "", "", "São Paulo", "SP", "", "", "", "", false⟩

/-- C8 counterexample: at postal code "29902555", city "São Paulo" and
28.5 °C, the response is NOT the body claimed by the specification
(with temp_F equal to 83.3): binary64 arithmetic gives
28.5*1.8+32 = 83.30000000000001, not 83.3. -/
theorem sample_response_as_specified_fails : ¬
    ((handleWeather (Except.ok ⟨"29902555"⟩) "key"
        (ViaCEPUpstream.payload 200 saoPauloViaCEP)
        (WeatherUpstream.httpResp 200 (WeatherBody.decoded ⟨⟨57, 2⟩, none⟩))).1 =
      ⟨200, "\x7b\"city\":\"São Paulo\",\"temp_C\":28.5,\"temp_F\":83.3,\"temp_K\":301.5\x7d"⟩) := by
  decide

/-- C8 amended: at postal code "29902555", city "São Paulo" and 28.5 °C
the response is 200 with exactly the body
\x7b"city":"São Paulo","temp_C":28.5,"temp_F":83.30000000000001,"temp_K":301.5\x7d:
temp_K is exactly 301.5 but temp_F is the binary64 value
83.30000000000001 of 28.5*1.8+32, which differs from the binary64 value
of the literal 83.3. -/
theorem sample_response_exact :
    handleWeather (Except.ok ⟨"29902555"⟩) "key"
        (ViaCEPUpstream.payload 200 saoPauloViaCEP)
        (WeatherUpstream.httpResp 200 (WeatherBody.decoded ⟨⟨57, 2⟩, none⟩)) =
      (⟨200, "\x7b\"city\":\"São Paulo\",\"temp_C\":28.5,\"temp_F\":83.30000000000001,\"temp_K\":301.5\x7d"⟩,
       ⟨[viaCEPURL "29902555", weatherURL], []⟩) ∧
    celsiusToFahrenheit ⟨57, 2⟩ ≠ decimalLit 833 1 ∧
    celsiusToKelvin ⟨57, 2⟩ = ⟨603, 2⟩ := by
  exact ⟨by decide, by decide, by decide⟩

/-- C9: a Weather Provider HTTP status other than 401 and 403 is not by
itself a failure: the outcome is the same as for a 200 status and is
determined solely by the decoded body; a decoded payload with no
embedded error object succeeds with its Celsius value, an embedded
error object or a decode failure is an error. -/
theorem weather_status_insensitive (apiKey city : String) (st : Nat) (b : WeatherBody)
    (hk : ¬ apiKey = "") (h401 : ¬ st = 401) (h403 : ¬ st = 403) :
    getWeather apiKey city (WeatherUpstream.httpResp st b) =
      getWeather apiKey city (WeatherUpstream.httpResp 200 b) ∧
    (∀ t, b = WeatherBody.decoded ⟨t, none⟩ →
      getWeather apiKey city (WeatherUpstream.httpResp st b) =
        (Except.ok t, ⟨[weatherURL], []⟩)) ∧
    (∀ detail, b = WeatherBody.malformed detail →
      (getWeather apiKey city (WeatherUpstream.httpResp st b)).1 =
        Except.error (jsonErrMsg detail)) ∧
    (∀ t e, b = WeatherBody.decoded ⟨t, some e⟩ →
      ∃ msg, (getWeather apiKey city (WeatherUpstream.httpResp st b)).1 =
        Except.error msg) := by
  refine ⟨?_, ?_, ?_, ?_⟩
  · cases b <;> simp [getWeather, hk, h401, h403]
  · rintro t rfl
    simp [getWeather, hk, h401, h403]
  · rintro detail rfl
    simp [getWeather, hk, h401, h403]
  · rintro t e rfl
    by_cases hcode : e.code = 1006 <;>
      simp [getWeather, hk, h401, h403, hcode]

/-- C9 witness: a provider-side 500 status with a clean decoded payload
still succeeds with the Celsius value. -/
theorem weather_status_insensitive_witness :
    getWeather "key" "Linhares" (WeatherUpstream.httpResp 500
        (WeatherBody.decoded ⟨⟨57, 2⟩, none⟩)) =
      (Except.ok ⟨57, 2⟩, ⟨[weatherURL], []⟩) :=
  (weather_status_insensitive "key" "Linhares" 500
      (WeatherBody.decoded ⟨⟨57, 2⟩, none⟩) (by decide) (by decide) (by decide)).2.1
    ⟨57, 2⟩ rfl

/-- C10: on the gateway's passthrough path the outbound content type is
always "application/json", whatever content type the Resolver Service's
response carried; only the status code and the body bytes are taken
from the Resolver's response. -/
theorem gateway_content_type (req : CEPRequest) (st : Nat) (ct body : String)
    (hv : validateCEP req.cep = true) :
    (handleCEP (Except.ok req) (ResolverUpstream.resp st ct body)).1.contentType =
      "application/json" ∧
    (handleCEP (Except.ok req) (ResolverUpstream.resp st ct body)).1.status = st ∧
    (handleCEP (Except.ok req) (ResolverUpstream.resp st ct body)).1.body = body := by
  simp [handleCEP, hv]

/-- C10 witness: a resolver response declaring text/html still leaves
the gateway with content type application/json. -/
theorem gateway_content_type_witness :
    (handleCEP (Except.ok ⟨"29902555"⟩)
        (ResolverUpstream.resp 200 "text/html" "ok")).1.contentType =
      "application/json" :=
  (gateway_content_type ⟨"29902555"⟩ 200 "text/html" "ok" (by decide)).1
